import Mathlib

/-
Verification of the autolemetry telemetry bootstrap layer.

The provider-registry functions are embedded from
src/autolemetry/tracer_provider.py.  The init facade, pipeline builder,
baggage projection and context scoping are not shipped in this copy of the
repository (only their tests and examples are), so those parts are modelled
from the specification; each such definition says so in its doc comment.
-/

/-- A tracer provider handle from the collaborating SDK, identified abstractly. -/
structure TracerProvider where
  pid : Nat
deriving DecidableEq

/-- A tracer, recording which provider produced it and the arguments it was requested with. -/
structure Tracer where
  provider : TracerProvider
  tracer_name : String
  version : Option String
  schema_url : Option String
deriving DecidableEq

/-- The registry world: the module-level isolated slot of tracer_provider.py
(initially None) together with the process-wide global trace provider that
the OpenTelemetry trace module would hand out. -/
structure RegistryWorld where
  isolated : Option TracerProvider
  globalTrace : TracerProvider
deriving DecidableEq

/-- Embeds set_autolemetry_tracer_provider: assigns the module-level slot. -/
def set_autolemetry_tracer_provider (provider : Option TracerProvider)
    (w : RegistryWorld) : RegistryWorld :=
  { w with isolated := provider }

/-- Embeds get_autolemetry_tracer_provider as a state transformer: it only
reads the module-level slot and returns it. -/
def get_autolemetry_tracer_provider_st (w : RegistryWorld) :
    Option TracerProvider × RegistryWorld :=
  (w.isolated, w)

/-- The value returned by get_autolemetry_tracer_provider. -/
def get_autolemetry_tracer_provider (w : RegistryWorld) : Option TracerProvider :=
  (get_autolemetry_tracer_provider_st w).1

/-- provider.get_tracer(name, version, schema_url) on an SDK provider. -/
def provider_get_tracer (p : TracerProvider) (n : String)
    (v s : Option String) : Tracer :=
  { provider := p, tracer_name := n, version := v, schema_url := s }

/-- trace.get_tracer(name, version, tracer_provider=None, schema_url=...):
with no explicit provider it resolves against the global trace provider. -/
def trace_get_tracer (w : RegistryWorld) (n : String) (v s : Option String) : Tracer :=
  provider_get_tracer w.globalTrace n v s

/-- Embeds get_autolemetry_tracer: re-reads the slot via
get_autolemetry_tracer_provider, uses the isolated provider when it is set and
falls back to the global provider otherwise. -/
def get_autolemetry_tracer_st (n : String) (v s : Option String)
    (w : RegistryWorld) : Tracer × RegistryWorld :=
  let r := get_autolemetry_tracer_provider_st w
  match r.1 with
  | some provider => (provider_get_tracer provider n v s, r.2)
  | none => (trace_get_tracer r.2 n v s, r.2)

/-- The tracer returned by get_autolemetry_tracer. -/
def get_autolemetry_tracer (n : String) (v s : Option String)
    (w : RegistryWorld) : Tracer :=
  (get_autolemetry_tracer_st n v s w).1

/-- Runs a sequence of set_autolemetry_tracer_provider calls in order. -/
def run_sets : RegistryWorld → List (Option TracerProvider) → RegistryWorld
  | w, [] => w
  | w, o :: os => run_sets (set_autolemetry_tracer_provider o w) os

/-- The registry world created at module import time:
the slot starts out as None, whatever the global provider is. -/
def initial_registry (g : TracerProvider) : RegistryWorld :=
  { isolated := none, globalTrace := g }

theorem run_sets_globalTrace (w : RegistryWorld) (ops : List (Option TracerProvider)) :
    (run_sets w ops).globalTrace = w.globalTrace := by
  induction ops generalizing w with
  | nil => rfl
  | cons o os ih => exact ih (set_autolemetry_tracer_provider o w)

/-- C1: after any sequence of set/clear operations, get_autolemetry_tracer
re-reads the slot at call time: when the slot holds p the tracer comes from p,
and when the slot is clear the tracer comes from the global active trace
provider of the original world (which set calls never touch). -/
theorem C1_get_tracer_follows_slot (w : RegistryWorld)
    (ops : List (Option TracerProvider)) (n : String) (v s : Option String) :
    (∀ p, get_autolemetry_tracer_provider (run_sets w ops) = some p →
      get_autolemetry_tracer n v s (run_sets w ops) = provider_get_tracer p n v s)
    ∧ (get_autolemetry_tracer_provider (run_sets w ops) = none →
      get_autolemetry_tracer n v s (run_sets w ops) = trace_get_tracer w n v s) := by
  constructor
  · intro p hp
    simp only [get_autolemetry_tracer_provider, get_autolemetry_tracer_provider_st] at hp
    simp [get_autolemetry_tracer, get_autolemetry_tracer_st,
      get_autolemetry_tracer_provider_st, hp]
  · intro hp
    simp only [get_autolemetry_tracer_provider, get_autolemetry_tracer_provider_st] at hp
    simp [get_autolemetry_tracer, get_autolemetry_tracer_st,
      get_autolemetry_tracer_provider_st, hp, trace_get_tracer,
      run_sets_globalTrace]

/-- C1 witness: after setting provider 1, clearing, then setting provider 2,
get_autolemetry_tracer returns a tracer from provider 2. -/
theorem C1_get_tracer_follows_slot_witness :
    get_autolemetry_tracer "lib" none none
      (run_sets (initial_registry ⟨0⟩) [some ⟨1⟩, none, some ⟨2⟩])
      = provider_get_tracer ⟨2⟩ "lib" none none :=
  (C1_get_tracer_follows_slot (initial_registry ⟨0⟩) [some ⟨1⟩, none, some ⟨2⟩]
    "lib" none none).1 ⟨2⟩ (by decide)

/-- C6: set_autolemetry_tracer_provider replaces the slot: after setting p the
getter returns exactly p (the latest set wins over any earlier set q), and
setting none clears the slot (p := none is an instance of the universal). -/
theorem C6_set_replaces_slot (w : RegistryWorld) (p q : Option TracerProvider) :
    get_autolemetry_tracer_provider (set_autolemetry_tracer_provider p w) = p
    ∧ get_autolemetry_tracer_provider
        (set_autolemetry_tracer_provider p (set_autolemetry_tracer_provider q w)) = p :=
  ⟨rfl, rfl⟩

/-- C9: before any set call the module-level slot holds None, so
get_autolemetry_tracer_provider returns none and get_autolemetry_tracer
takes the global-provider fallback path. -/
theorem C9_initial_slot_none (g : TracerProvider) (n : String) (v s : Option String) :
    get_autolemetry_tracer_provider (initial_registry g) = none
    ∧ get_autolemetry_tracer n v s (initial_registry g)
        = trace_get_tracer (initial_registry g) n v s :=
  ⟨rfl, rfl⟩

/-- C10: the two getters leave the registry state unchanged, and only
set_autolemetry_tracer_provider writes the isolated slot. -/
theorem C10_getters_frame (w : RegistryWorld) (n : String) (v s : Option String)
    (p : Option TracerProvider) :
    (get_autolemetry_tracer_provider_st w).2 = w
    ∧ (get_autolemetry_tracer_st n v s w).2 = w
    ∧ (set_autolemetry_tracer_provider p w).isolated = p := by
  refine ⟨rfl, ?_, rfl⟩
  cases h : w.isolated <;>
    simp [get_autolemetry_tracer_st, get_autolemetry_tracer_provider_st, h]

/-- Modelled from the spec: the baggage attribute-prefix policy of the init
facade (the init/span code is not under src/, only its tests are). The four
states are disabled, default prefixing, a caller-supplied prefixing string,
and prefix-free emission. -/
inductive BaggagePolicy
  | disabled
  | dfltPfx
  | customPfx (s : String)
  | noPfx
deriving DecidableEq

/-- The default prefixing string used by the enabled-default policy. -/
def dfltPfxStr : String := "baggage"

/-- Modelled from the spec: the prefixing string of a policy, none when the
policy is disabled; default policy uses "baggage", the prefix-free policy the
empty string. -/
def policyPfx : BaggagePolicy → Option String
  | BaggagePolicy.disabled => none
  | BaggagePolicy.dfltPfx => some dfltPfxStr
  | BaggagePolicy.customPfx s => some s
  | BaggagePolicy.noPfx => some ""

/-- Modelled from the spec: the attribute key for a baggage key k under
prefixing string pfx: k alone when pfx is empty, otherwise pfx ++ "." ++ k. -/
def projKey (pfx k : String) : String :=
  if pfx = "" then k else pfx ++ "." ++ k

/-- Modelled from the spec: the baggage-to-attribute projection rule; empty
when disabled, otherwise one attribute per baggage entry. -/
def baggage_projection (pol : BaggagePolicy) (B : List (String × String)) :
    List (String × String) :=
  match policyPfx pol with
  | none => []
  | some pfx => B.map (fun kv => (projKey pfx kv.1, kv.2))

/-- A span as the claims see it: a name and an ordered attribute list. -/
structure SpanData where
  span_name : String
  attributes : List (String × String)
deriving DecidableEq

/-- span.set_attribute(key, value): appends one attribute. -/
def set_attribute (sp : SpanData) (k v : String) : SpanData :=
  { sp with attributes := sp.attributes ++ [(k, v)] }

/-- Modelled from the spec: span start walks the active baggage map and sets
one attribute per entry according to the policy, in baggage order. -/
def apply_baggage_attributes (pol : BaggagePolicy) (B : List (String × String))
    (sp : SpanData) : SpanData :=
  match policyPfx pol with
  | none => sp
  | some pfx => B.foldl (fun acc kv => set_attribute acc (projKey pfx kv.1) kv.2) sp

theorem foldl_set_attribute (pfx : String) (B : List (String × String)) (sp : SpanData) :
    (B.foldl (fun acc kv => set_attribute acc (projKey pfx kv.1) kv.2) sp).attributes
      = sp.attributes ++ B.map (fun kv => (projKey pfx kv.1, kv.2)) := by
  induction B generalizing sp with
  | nil => simp
  | cons kv B ih =>
      rw [List.foldl_cons, ih]
      simp [set_attribute]

/-- C2: the baggage-derived attributes applied at span start are exactly the
projection of the active baggage: nothing when the policy is disabled, and
otherwise one attribute per baggage entry whose key is the entry key under
the policy's prefixing string and whose value is the entry value. -/
theorem C2_baggage_projection_exact (pol : BaggagePolicy)
    (B : List (String × String)) (sp : SpanData) :
    (apply_baggage_attributes pol B sp).attributes
        = sp.attributes ++ baggage_projection pol B
    ∧ (pol = BaggagePolicy.disabled → baggage_projection pol B = [])
    ∧ (∀ pfx, policyPfx pol = some pfx →
        baggage_projection pol B = B.map (fun kv => (projKey pfx kv.1, kv.2))) := by
  refine ⟨?_, ?_, ?_⟩
  · cases hp : policyPfx pol <;>
      simp [apply_baggage_attributes, baggage_projection, hp, foldl_set_attribute]
  · intro h
    subst h
    rfl
  · intro pfx hp
    simp [baggage_projection, hp]

/-- A concrete baggage map used by witnesses. -/
def demoBaggage : List (String × String) := [("tenant.id", "t-1")]

/-- A concrete freshly-started span used by witnesses. -/
def demoSpan : SpanData := { span_name := "op", attributes := [] }

/-- C2 witness: under the default policy the projection of a one-entry
baggage map is that entry under the default prefixing string. -/
theorem C2_baggage_projection_exact_witness :
    baggage_projection BaggagePolicy.dfltPfx demoBaggage
      = demoBaggage.map (fun kv => (projKey dfltPfxStr kv.1, kv.2)) :=
  (C2_baggage_projection_exact BaggagePolicy.dfltPfx demoBaggage demoSpan).2.2
    dfltPfxStr (by decide)

/-- The ambient context value: an association list of baggage entries (its
exact contents are irrelevant to the restore discipline). -/
abbrev Ctx := List (String × String)

/-- Modelled from the spec: the opaque handle returned by attach; it records
the context that was active immediately before the attach. -/
structure ContextToken where
  prior : Ctx
deriving DecidableEq

/-- Modelled from the spec: attach replaces the ambient context with c and
returns a token holding the previously active context. -/
def context_attach (c : Ctx) (cur : Ctx) : ContextToken × Ctx :=
  (⟨cur⟩, c)

/-- Modelled from the spec: detach restores exactly the context recorded in
the token, whatever is currently active. -/
def context_detach (t : ContextToken) (_cur : Ctx) : Ctx :=
  t.prior

/-- A well-bracketed program of attach/detach scopes: empty, an exception
raiser, a scope that attaches c around its body and always detaches on the
way out (also when the body raised), or sequencing. -/
inductive ScopeProg
  | leaf : ScopeProg
  | raise : ScopeProg
  | scope : Ctx → ScopeProg → ScopeProg
  | seq : ScopeProg → ScopeProg → ScopeProg

/-- Runs a scope program from an ambient context; the Bool records whether it
finished without an exception. A scope detaches its token even when its body
raised, and sequencing stops at the first exception. -/
def run_scopes : ScopeProg → Ctx → Ctx × Bool
  | ScopeProg.leaf, s => (s, true)
  | ScopeProg.raise, s => (s, false)
  | ScopeProg.scope c body, s =>
      let t := (context_attach c s).1
      let s1 := (context_attach c s).2
      let r := run_scopes body s1
      (context_detach t r.1, r.2)
  | ScopeProg.seq a b, s =>
      let r := run_scopes a s
      if r.2 then run_scopes b r.1 else (r.1, false)

/-- C3: for every well-bracketed attach/detach program, arbitrarily nested
and whether or not an exception propagates, detaching with the saved tokens
ends with exactly the ambient context that was active at the start. -/
theorem C3_detach_restores_prior (p : ScopeProg) (s : Ctx) :
    (run_scopes p s).1 = s := by
  induction p generalizing s with
  | leaf => rfl
  | raise => rfl
  | scope c body ih => rfl
  | seq a b iha ihb =>
      simp only [run_scopes]
      by_cases h : (run_scopes a s).2
      · simp [h, ihb, iha]
      · simp [h, iha]

/-- A span exporter: the default OTLP one pointed at an endpoint, the console
fallback, or an in-memory exporter identified by a number (as in the tests). -/
inductive Exporter
  | otlp (endpoint : String)
  | console
  | mem (eid : Nat)
deriving DecidableEq

/-- A span processor wrapping an exporter, either simple (synchronous) or
batching. -/
inductive SpanProcessor
  | simple (e : Exporter)
  | batch (e : Exporter)
deriving DecidableEq

/-- Modelled from the spec: the minimal threshold above which a specified
batch timeout selects a batching processor. -/
def minBatchTimeout : Nat := 0

/-- Modelled from the spec: wrapping a raw exporter in a processor — batching
when a batch timeout is specified and above the minimal threshold, simple
(synchronous) otherwise. -/
def wrap_exporter (batch_timeout : Option Nat) (e : Exporter) : SpanProcessor :=
  match batch_timeout with
  | some t => if minBatchTimeout < t then SpanProcessor.batch e else SpanProcessor.simple e
  | none => SpanProcessor.simple e

/-- The span-pipeline slice of the configuration after single-vs-list
normalization of the raw arguments. -/
structure PipelineConfig where
  endpoint : Option String
  span_processors : List SpanProcessor
  span_exporters : List Exporter
  batch_timeout : Option Nat
deriving DecidableEq

/-- Modelled from the spec: the span-pipeline normalization — caller
processors verbatim when present; else each caller exporter wrapped in order;
else one default processor around an exporter at the configured endpoint, or
around the console exporter when no endpoint is configured. -/
def normalize_span_pipeline (c : PipelineConfig) : List SpanProcessor :=
  match c.span_processors, c.span_exporters, c.endpoint with
  | p :: ps, _, _ => p :: ps
  | [], e :: es, _ => (e :: es).map (wrap_exporter c.batch_timeout)
  | [], [], some ep => [wrap_exporter c.batch_timeout (Exporter.otlp ep)]
  | [], [], none => [SpanProcessor.simple Exporter.console]

/-- C4: normalization always yields a non-empty list, and that list is the
caller processors verbatim, else the wrapped caller exporters in order, else
the single default processor. -/
theorem C4_normalization (c : PipelineConfig) :
    normalize_span_pipeline c ≠ []
    ∧ (c.span_processors ≠ [] → normalize_span_pipeline c = c.span_processors)
    ∧ (c.span_processors = [] → c.span_exporters ≠ [] →
        normalize_span_pipeline c
          = c.span_exporters.map (wrap_exporter c.batch_timeout))
    ∧ (c.span_processors = [] → c.span_exporters = [] →
        normalize_span_pipeline c
          = [match c.endpoint with
             | some ep => wrap_exporter c.batch_timeout (Exporter.otlp ep)
             | none => SpanProcessor.simple Exporter.console]) := by
  obtain ⟨ep, ps, es, bt⟩ := c
  refine ⟨?_, ?_, ?_, ?_⟩
  · cases ps <;> cases es <;> cases ep <;> simp [normalize_span_pipeline]
  · intro h
    cases ps with
    | nil => exact absurd rfl h
    | cons p ps => rfl
  · intro h1 h2
    subst h1
    cases es with
    | nil => exact absurd rfl h2
    | cons e es => rfl
  · intro h1 h2
    subst h1
    subst h2
    cases ep <;> rfl

/-- A concrete configuration used by the C4 witness. -/
def demoCfg : PipelineConfig :=
  { endpoint := none
    span_processors := [SpanProcessor.simple (Exporter.mem 0)]
    span_exporters := []
    batch_timeout := none }

/-- C4 witness: with one caller-supplied processor, normalization returns
exactly that processor list. -/
theorem C4_normalization_witness :
    normalize_span_pipeline demoCfg = demoCfg.span_processors :=
  (C4_normalization demoCfg).2.1 (by decide)

/-- Modelled from the spec: the single span_processor argument and the
span_processors list argument are merged into one effective processor list. -/
def effective_span_processors (single : Option SpanProcessor)
    (multi : List SpanProcessor) : List SpanProcessor :=
  (match single with
   | some p => [p]
   | none => []) ++ multi

/-- Modelled from the spec: running a workload of ended spans through a
pipeline delivers to each processor every span, in the order the spans
ended. -/
def run_workload (procs : List SpanProcessor) (spans : List SpanData) :
    List (SpanProcessor × List SpanData) :=
  procs.map (fun pr => (pr, spans))

/-- C7: init with span_processor = X and init with span_processors = [X]
normalize to pipelines that export exactly the same spans for an identical
workload. -/
theorem C7_single_vs_list (X : SpanProcessor) (ep : Option String)
    (bt : Option Nat) (spans : List SpanData) :
    run_workload
        (normalize_span_pipeline
          ⟨ep, effective_span_processors (some X) [], [], bt⟩) spans
      = run_workload
          (normalize_span_pipeline
            ⟨ep, effective_span_processors none [X], [], bt⟩) spans := rfl

/-- C8: init with a non-empty list of distinct exporters yields one processor
per exporter, in order, and each exporter receives every ended span in the
order the spans ended. -/
theorem C8_every_exporter_receives_all (es : List Exporter) (ep : Option String)
    (bt : Option Nat) (spans : List SpanData)
    (hne : es ≠ []) (hnd : es.Nodup) :
    run_workload (normalize_span_pipeline ⟨ep, [], es, bt⟩) spans
      = es.map (fun e => (wrap_exporter bt e, spans)) := by
  cases es with
  | nil => exact absurd rfl hne
  | cons e es2 =>
      simp [normalize_span_pipeline, run_workload, List.map_map, Function.comp]

/-- A concrete ended-span workload used by witnesses. -/
def demoSpans : List SpanData :=
  [{ span_name := "op1", attributes := [] }, { span_name := "op2", attributes := [] }]

/-- C8 witness: with two distinct in-memory exporters both receive the whole
two-span workload in order. -/
theorem C8_every_exporter_receives_all_witness :
    run_workload
        (normalize_span_pipeline ⟨none, [], [Exporter.mem 0, Exporter.mem 1], some 5⟩)
        demoSpans
      = [Exporter.mem 0, Exporter.mem 1].map (fun e => (wrap_exporter (some 5) e, demoSpans)) :=
  C8_every_exporter_receives_all [Exporter.mem 0, Exporter.mem 1] none (some 5)
    demoSpans (by decide) (by decide)

/-- An element of the raw span-output argument list handed to init: either a
pre-built processor or a raw exporter. -/
inductive ConfigItem
  | procItem (p : SpanProcessor)
  | expItem (e : Exporter)
deriving DecidableEq

/-- Whether a raw item is a pre-built processor. -/
def isProcItem : ConfigItem → Bool
  | ConfigItem.procItem _ => true
  | ConfigItem.expItem _ => false

/-- The processor carried by a raw item, if any. -/
def itemProc : ConfigItem → Option SpanProcessor
  | ConfigItem.procItem p => some p
  | ConfigItem.expItem _ => none

/-- The exporter carried by a raw item, if any. -/
def itemExp : ConfigItem → Option Exporter
  | ConfigItem.expItem e => some e
  | ConfigItem.procItem _ => none

/-- The error message for a span-output list mixing processors and exporters. -/
def errMixed : String := "span output list mixes processors and exporters"

/-- The error message for an unrecognized baggage argument. -/
def errBaggage : String := "unrecognized baggage policy value"

/-- The error message for a conflicting reserved service-name resource key. -/
def errService : String := "conflicting service name in resource attributes"

/-- Modelled from the spec: splitting the raw span-output list — all items
must be of one kind; a mixed list is a configuration error. -/
def split_items (items : List ConfigItem) :
    Except String (List SpanProcessor × List Exporter) :=
  if items.all isProcItem then
    Except.ok (items.filterMap itemProc, [])
  else if items.all (fun i => !(isProcItem i)) then
    Except.ok ([], items.filterMap itemExp)
  else
    Except.error errMixed

/-- The baggage argument as init receives it: True, False, a prefixing
string, or an unrecognized value. -/
inductive BaggageArg
  | bTrue
  | bFalse
  | bStr (s : String)
  | bBad
deriving DecidableEq

/-- Modelled from the spec: interpreting the baggage argument — True selects
the default policy, False disables, a string selects a custom or prefix-free
policy, anything else is a configuration error. -/
def parse_baggage : BaggageArg → Except String BaggagePolicy
  | BaggageArg.bTrue => Except.ok BaggagePolicy.dfltPfx
  | BaggageArg.bFalse => Except.ok BaggagePolicy.disabled
  | BaggageArg.bStr s =>
      Except.ok (if s = "" then BaggagePolicy.noPfx else BaggagePolicy.customPfx s)
  | BaggageArg.bBad => Except.error errBaggage

/-- The reserved resource key holding the service name. -/
def service_name_key : String := "service.name"

/-- Modelled from the spec: caller resource attributes must not carry a value
for the reserved service-name key that conflicts with the service argument. -/
def check_resource (service : String) (attrs : List (String × String)) :
    Except String Unit :=
  if attrs.any (fun kv => kv.1 == service_name_key && kv.2 != service) then
    Except.error errService
  else
    Except.ok ()

/-- Modelled from the spec: merging the service name and the caller resource
attributes into one resource descriptor, the reserved key first. -/
def merge_resource (service : String) (attrs : List (String × String)) :
    List (String × String) :=
  (service_name_key, service) :: attrs.filter (fun kv => kv.1 != service_name_key)

/-- The raw arguments of init that matter to validation. -/
structure InitArgs where
  service : String
  endpoint : Option String
  resource_attributes : List (String × String)
  baggage : BaggageArg
  span_items : List ConfigItem
  batch_timeout : Option Nat
deriving DecidableEq

/-- The pipeline installed into the process-wide registry by a successful
init. -/
structure InstalledPipeline where
  resource : List (String × String)
  policy : BaggagePolicy
  processors : List SpanProcessor
deriving DecidableEq

/-- Modelled from the spec: init validates the whole configuration before
anything is installed; any validation failure is a ConfigError. -/
def build_pipeline (a : InitArgs) : Except String InstalledPipeline :=
  match parse_baggage a.baggage with
  | Except.error e => Except.error e
  | Except.ok pol =>
    match check_resource a.service a.resource_attributes with
    | Except.error e => Except.error e
    | Except.ok _ =>
      match split_items a.span_items with
      | Except.error e => Except.error e
      | Except.ok pe =>
          Except.ok
            { resource := merge_resource a.service a.resource_attributes
              policy := pol
              processors :=
                normalize_span_pipeline ⟨a.endpoint, pe.1, pe.2, a.batch_timeout⟩ }

/-- The process-wide provider state before and after init. -/
structure GlobalState where
  installed : Option InstalledPipeline
deriving DecidableEq

/-- Modelled from the spec: running init against the process-wide state — a
successful build replaces the installed pipeline, a ConfigError is reported
and leaves the state untouched. -/
def run_init (a : InitArgs) (g : GlobalState) : GlobalState × Option String :=
  match build_pipeline a with
  | Except.ok ps => ({ installed := some ps }, none)
  | Except.error e => (g, some e)

theorem split_items_mixed (items : List ConfigItem) (p : SpanProcessor) (e : Exporter)
    (hp : ConfigItem.procItem p ∈ items) (he : ConfigItem.expItem e ∈ items) :
    split_items items = Except.error errMixed := by
  have h1 : items.all isProcItem = false := by
    rw [List.all_eq_false]
    exact ⟨ConfigItem.expItem e, he, by simp [isProcItem]⟩
  have h2 : items.all (fun i => !(isProcItem i)) = false := by
    rw [List.all_eq_false]
    exact ⟨ConfigItem.procItem p, hp, by simp [isProcItem]⟩
  simp [split_items, h1, h2]

theorem check_resource_conflict (service v : String)
    (attrs : List (String × String)) (hv : (service_name_key, v) ∈ attrs)
    (hne : v ≠ service) :
    check_resource service attrs = Except.error errService := by
  have h : attrs.any (fun kv => kv.1 == service_name_key && kv.2 != service) = true := by
    rw [List.any_eq_true]
    exact ⟨(service_name_key, v), hv, by simp [hne]⟩
  simp [check_resource, h]

/-- An invalid configuration in the sense of the claim: a mixed span-output
list, an unrecognized baggage value, or a conflicting reserved service-name
resource entry. -/
def invalid_init_args (a : InitArgs) : Prop :=
  a.baggage = BaggageArg.bBad
  ∨ (∃ p e, ConfigItem.procItem p ∈ a.span_items ∧ ConfigItem.expItem e ∈ a.span_items)
  ∨ (∃ v, (service_name_key, v) ∈ a.resource_attributes ∧ v ≠ a.service)

/-- C5: for every invalid configuration, init reports a ConfigError and the
process-wide provider state is exactly what it was before the call — no
partial pipeline is installed. -/
theorem C5_config_error_no_partial_install (a : InitArgs) (g : GlobalState)
    (h : invalid_init_args a) :
    (run_init a g).2.isSome = true ∧ (run_init a g).1 = g := by
  have herr : ∃ msg, build_pipeline a = Except.error msg := by
    rcases h with hb | ⟨p, e, hp, he⟩ | ⟨v, hv, hvne⟩
    · exact ⟨errBaggage, by simp [build_pipeline, hb, parse_baggage]⟩
    · cases hpb : parse_baggage a.baggage with
      | error m => exact ⟨m, by simp [build_pipeline, hpb]⟩
      | ok pol =>
          cases hcr : check_resource a.service a.resource_attributes with
          | error m => exact ⟨m, by simp [build_pipeline, hpb, hcr]⟩
          | ok u =>
              exact ⟨errMixed,
                by simp [build_pipeline, hpb, hcr, split_items_mixed _ p e hp he]⟩
    · cases hpb : parse_baggage a.baggage with
      | error m => exact ⟨m, by simp [build_pipeline, hpb]⟩
      | ok pol =>
          exact ⟨errService,
            by simp [build_pipeline, hpb,
              check_resource_conflict a.service v a.resource_attributes hv hvne]⟩
  rcases herr with ⟨msg, hmsg⟩
  simp [run_init, hmsg]

/-- A concrete invalid configuration: an unrecognized baggage value. -/
def demoBadArgs : InitArgs :=
  { service := "svc"
    endpoint := none
    resource_attributes := []
    baggage := BaggageArg.bBad
    span_items := []
    batch_timeout := none }

/-- C5 witness: init with an unrecognized baggage value reports an error and
leaves an empty provider state empty. -/
theorem C5_config_error_no_partial_install_witness :
    (run_init demoBadArgs ⟨none⟩).2.isSome = true
    ∧ (run_init demoBadArgs ⟨none⟩).1 = ⟨none⟩ :=
  C5_config_error_no_partial_install demoBadArgs ⟨none⟩ (Or.inl rfl)
